import Mathlib

/-!
Verification of the SPDK multi-reactor I/O dispatch examples against their
natural-language specification.

The development shallowly embeds the accounting, submission, completion and
shutdown logic of the C sources:

- `bdev_reactor_multi_threads.c`: single reactor, several cooperative SPDK
  threads, per-thread submitted/completed counters, an atomically incremented
  global completed counter and an `spdk_app_stop` call on reaching the
  expected total.
- `bdev_multicore_multi_threads.c`: two reactors, two threads each, a plain
  (non-atomic) global completed counter and the same stop condition.
- `bdev_nvme.c`: single-context submit, poll-until-complete, then release of
  the I/O channel and the descriptor.

Queue-depth backpressure, argument validation and `close()` semantics live in
the SPDK library rather than in these sources; those parts are modelled from
the specification and are marked as such in their doc comments.
-/

/-! ## Submission-path effects, `bdev_reactor_multi_threads.c` and `bdev_nvme.c`

`submit_one_io` (bdev_reactor_multi_threads.c, lines 60-91) allocates a task
record with `calloc`, then a DMA buffer with `spdk_zmalloc`, then calls
`spdk_bdev_read`; on a nonzero return code it frees the buffer and the task
and leaves every counter unchanged.  `submit_bdev_io` (bdev_nvme.c, lines
36-51) is the same shape without a task record. -/

/-- Resource and counter effects of one submission attempt. -/
structure SubmitEff where
  submittedDelta : Nat
  completedDelta : Nat
  outstandingDelta : Nat
  bufAllocated : Nat
  bufFreed : Nat
  taskAllocated : Nat
  taskFreed : Nat
deriving DecidableEq

/-- A submission attempt is effect-free when it changes no counter and
round-trips every resource it touched. -/
def SubmitEff.effectFree (e : SubmitEff) : Bool :=
  e.submittedDelta == 0 && e.completedDelta == 0 && e.outstandingDelta == 0 &&
  e.bufAllocated == e.bufFreed && e.taskAllocated == e.taskFreed

/-- Effects of `submit_one_io` (bdev_reactor_multi_threads.c, lines 60-91),
as a function of whether `calloc` succeeded, whether `spdk_zmalloc`
succeeded, and the return code of `spdk_bdev_read`.  The branches mirror the
source in order: `calloc` failure returns having allocated nothing;
`spdk_zmalloc` failure frees the task and returns; a nonzero read return code
frees the buffer and the task; success increments `t->submitted` and hands
the buffer and task to the completion callback. -/
def submit_one_io (callocOk zmallocOk : Bool) (rc : Int) : SubmitEff :=
  if !callocOk then ⟨0, 0, 0, 0, 0, 0, 0⟩
  else if !zmallocOk then ⟨0, 0, 0, 0, 0, 1, 1⟩
  else if rc = 0 then ⟨1, 0, 1, 1, 0, 1, 0⟩
  else ⟨0, 0, 0, 1, 1, 1, 1⟩

/-- Effects of `submit_bdev_io` (bdev_nvme.c, lines 36-51): buffer allocation
failure returns at once; a nonzero `spdk_bdev_read` return code frees the
buffer and leaves `io_submitted` unchanged; success increments
`ctx->io_submitted`.  There is no separate task record in this variant. -/
def submit_bdev_io (allocOk : Bool) (rc : Int) : SubmitEff :=
  if !allocOk then ⟨0, 0, 0, 0, 0, 0, 0⟩
  else if rc = 0 then ⟨1, 0, 1, 1, 0, 0, 0⟩
  else ⟨0, 0, 0, 1, 1, 0, 0⟩

/-- Resource effects of `io_complete` (bdev_reactor_multi_threads.c, lines
36-58): it increments the per-thread and global completed counters and calls
`spdk_bdev_free_io`, `spdk_free(task->buf)` and `free(task)` unconditionally,
before and independently of the success flag. -/
structure CompleteEff where
  threadCompletedDelta : Nat
  gTotalCompletedDelta : Nat
  bufFreed : Nat
  taskFreed : Nat
  bdevIoFreed : Nat
deriving DecidableEq

/-- The completion callback of `bdev_reactor_multi_threads.c` (lines 36-58);
its frees do not depend on the success flag. -/
def io_complete (_success : Bool) : CompleteEff := ⟨1, 1, 1, 1, 1⟩

/-- The completion callback of `bdev_multicore_multi_threads.c` (lines
26-32) only increments `g_total_completed` and tests the stop condition; it
frees no buffer (and never calls `spdk_bdev_free_io`). -/
def mc_io_complete_bufFreed : Nat := 0

/-- `submit_io` of `bdev_multicore_multi_threads.c` (line 37) allocates one
DMA buffer per issued read. -/
def mc_submit_io_bufAllocated : Nat := 1

/-! ## Scenario A, `bdev_multicore_multi_threads.c`

`app_start` (lines 50-68) sets `g_total_expected = THREADS_PER_REACTOR * 2 *
IO_PER_THREAD` and creates `THREADS_PER_REACTOR` SPDK threads on each of the
two reactor cores; each thread runs `submit_io`, which issues `IO_PER_THREAD`
reads.  `io_complete` (lines 26-32) increments the global completed counter
and calls `spdk_app_stop(0)` when it equals the expected total. -/

/-- `THREADS_PER_REACTOR` of bdev_multicore_multi_threads.c (line 10). -/
def MC_THREADS_PER_REACTOR : Nat := 2

/-- `IO_PER_THREAD` of bdev_multicore_multi_threads.c (line 11). -/
def MC_IO_PER_THREAD : Nat := 4

/-- `g_total_expected` as computed by `app_start` (line 55): threads per
reactor, times the two reactors of `reactor_mask = 0x3`, times the reads
issued per thread. -/
def mc_g_total_expected : Nat := MC_THREADS_PER_REACTOR * 2 * MC_IO_PER_THREAD

/-- Total reads issued in Scenario A: each of the `THREADS_PER_REACTOR * 2`
threads runs `submit_io`, whose loop issues `IO_PER_THREAD` reads. -/
def mc_reads_issued : Nat := MC_THREADS_PER_REACTOR * 2 * MC_IO_PER_THREAD

/-- Global mutable state of bdev_multicore_multi_threads.c relevant to
completion accounting, plus a count of `spdk_app_stop` invocations. -/
structure MCGlobals where
  g_total_completed : Nat
  stops : Nat
deriving DecidableEq

/-- One run of `io_complete` (bdev_multicore_multi_threads.c, lines 26-32)
with the callbacks processed one at a time: increment `g_total_completed`,
then call `spdk_app_stop(0)` exactly when it equals `g_total_expected`.  The
success flag of the completion is ignored by the source (`(void)success`). -/
def mc_io_complete_step (g_total_expected : Nat) (s : MCGlobals) : MCGlobals :=
  let c := s.g_total_completed + 1
  ⟨c, if c = g_total_expected then s.stops + 1 else s.stops⟩

/-- The zero-error device test double of Scenario A: every completion it
delivers carries a success status. -/
def zeroErrorDouble : Nat → Bool := fun _ => true

/-- Scenario A run to completion: all sixteen completions delivered by the
test double are processed in order. -/
def scenarioA_run : MCGlobals :=
  (List.range mc_reads_issued).foldl
    (fun s _ => mc_io_complete_step mc_g_total_expected s) ⟨0, 0⟩

/-! ## Fine-grained interleavings of `io_complete`, `bdev_multicore_multi_threads.c`

With `reactor_mask = 0x3` the completion callbacks run on two reactor cores
in parallel.  The plain `g_total_completed++` of line 28 is a load followed
by a store of the incremented value, and the comparison of line 29 re-reads
the counter.  The model below makes those three machine steps explicit and
lets the two cores interleave them. -/

/-- The two reactor cores of `reactor_mask = 0x3`. -/
inductive Core
  | core0
  | core1
deriving DecidableEq

/-- Machine-level steps of the body of `io_complete`
(bdev_multicore_multi_threads.c, lines 26-32). -/
inductive PlainOp
  | loadCounter
  | storeCounter
  | checkAndStop
deriving DecidableEq

/-- Shared counter, one private register per core holding the loaded value,
and the number of `spdk_app_stop` invocations. -/
structure RaceState where
  g_total_completed : Nat
  reg0 : Nat
  reg1 : Nat
  stops : Nat
deriving DecidableEq

/-- Effect of one machine step of `io_complete` executed by one core:
`loadCounter` reads `g_total_completed` into the core register,
`storeCounter` writes back the register plus one (the two halves of the
non-atomic `g_total_completed++`), and `checkAndStop` re-reads the counter
and invokes `spdk_app_stop(0)` when it equals `g_total_expected`. -/
def raceStep (g_total_expected : Nat) (s : RaceState) : Core × PlainOp → RaceState
  | (Core.core0, PlainOp.loadCounter) => { s with reg0 := s.g_total_completed }
  | (Core.core0, PlainOp.storeCounter) => { s with g_total_completed := s.reg0 + 1 }
  | (Core.core1, PlainOp.loadCounter) => { s with reg1 := s.g_total_completed }
  | (Core.core1, PlainOp.storeCounter) => { s with g_total_completed := s.reg1 + 1 }
  | (_, PlainOp.checkAndStop) =>
      if s.g_total_completed = g_total_expected then { s with stops := s.stops + 1 } else s

/-- Run a schedule of interleaved machine steps from the all-zero state. -/
def raceRun (g_total_expected : Nat) (sched : List (Core × PlainOp)) : RaceState :=
  sched.foldl (raceStep g_total_expected) ⟨0, 0, 0, 0⟩

/-- The machine steps of one execution of `io_complete`, in program order. -/
def io_complete_ops : List PlainOp :=
  [PlainOp.loadCounter, PlainOp.storeCounter, PlainOp.checkAndStop]

/-- `interleavingOf sched p0 p1` holds when `sched` is an interleaving of the
core0 program `p0` and the core1 program `p1`, each taken in order. -/
def interleavingOf : List (Core × PlainOp) → List PlainOp → List PlainOp → Bool
  | [], [], [] => true
  | [], _ :: _, _ => false
  | [], [], _ :: _ => false
  | (Core.core0, o) :: rest, o0 :: p0, p1 => o == o0 && interleavingOf rest p0 p1
  | (Core.core0, _) :: _, [], _ => false
  | (Core.core1, o) :: rest, p0, o1 :: p1 => o == o1 && interleavingOf rest p0 p1
  | (Core.core1, _) :: _, _, [] => false

/-- Schedule in which the two final completions increment sequentially but
both equality checks run after the second store: core0 loads and stores,
core1 loads and stores, then both check. -/
def doubleStopSched : List (Core × PlainOp) :=
  [(Core.core0, PlainOp.loadCounter), (Core.core0, PlainOp.storeCounter),
   (Core.core1, PlainOp.loadCounter), (Core.core1, PlainOp.storeCounter),
   (Core.core1, PlainOp.checkAndStop), (Core.core0, PlainOp.checkAndStop)]

/-- Schedule in which the two loads of the plain `g_total_completed++` race:
both cores load before either stores, so one increment is lost. -/
def lostUpdateSched : List (Core × PlainOp) :=
  [(Core.core0, PlainOp.loadCounter), (Core.core1, PlainOp.loadCounter),
   (Core.core0, PlainOp.storeCounter), (Core.core1, PlainOp.storeCounter),
   (Core.core0, PlainOp.checkAndStop), (Core.core1, PlainOp.checkAndStop)]

/-- How a global-counter mutation site is written in the source. -/
inductive CounterMutation
  | atomicFetchAdd
  | plainIncrement
deriving DecidableEq

/-- The mutation of `g_total_completed` in `io_complete` of
bdev_reactor_multi_threads.c (line 43) is `__atomic_fetch_add(...,
__ATOMIC_RELAXED)`. -/
def reactor_g_total_completed_mutation : CounterMutation := CounterMutation.atomicFetchAdd

/-- The mutation of `g_total_completed` in `io_complete` of
bdev_multicore_multi_threads.c (line 28) is the plain `g_total_completed++`. -/
def multicore_g_total_completed_mutation : CounterMutation := CounterMutation.plainIncrement

/-! ## The QueueHandle contract

The sources obtain their queues from the SPDK library
(`spdk_bdev_get_io_channel`, `spdk_nvme_ctrlr_alloc_io_qpair`) and the
argument validation, queue-depth accounting and close semantics of
`submitRead`/`close` live inside that library, not under src/; the callers in
src/ only branch on the returned code (and, per `submit_one_io` and
`submit_bdev_io` above, leave every counter unchanged on a nonzero code).
These operations are therefore modelled from the specification. -/

/-- Block geometry of the device, as exposed by `spdk_bdev_get_block_size`
and `spdk_bdev_get_num_blocks`. -/
structure DeviceGeom where
  blockSize : Nat
  blockCount : Nat
deriving DecidableEq

/-- Device capacity in bytes. -/
def DeviceGeom.capacity (d : DeviceGeom) : Nat := d.blockSize * d.blockCount

/-- Synchronous result of a submission attempt. -/
inductive SubmitResult
  | ok
  | invalidArgument
  | backpressure
deriving DecidableEq

/-- Observable state of one QueueHandle: its configured depth limit, its
outstanding-request count, its submitted counter and the number of hardware
submissions actually issued. -/
structure QueueHandleSt where
  depthLimit : Nat
  outstanding : Nat
  submitted : Nat
  hwSubmissions : Nat
deriving DecidableEq

/-- Modelled from the spec: `submitRead` of the QueueHandle contract, whose
implementation is in the SPDK library rather than under src/.  Preconditions
checked synchronously, in order: `blockCount > 0`; `(lba + blockCount) *
blockSize` within the device capacity; buffer length equal to `blockCount *
blockSize`; buffer address aligned to the 4096-byte DMA boundary.  A
violation returns `invalidArgument` with the queue state untouched and no
hardware call issued.  Otherwise, an outstanding count already at the depth
limit returns `backpressure`, again with no state change; a successful call
increments the outstanding count, the submitted counter and the
hardware-submission count. -/
def submitRead (dev : DeviceGeom) (q : QueueHandleSt)
    (lba blockCount bufLen bufAddr : Nat) : SubmitResult × QueueHandleSt :=
  if blockCount = 0 then (SubmitResult.invalidArgument, q)
  else if dev.capacity < (lba + blockCount) * dev.blockSize then (SubmitResult.invalidArgument, q)
  else if bufLen ≠ blockCount * dev.blockSize then (SubmitResult.invalidArgument, q)
  else if bufAddr % 4096 ≠ 0 then (SubmitResult.invalidArgument, q)
  else if q.outstanding = q.depthLimit then (SubmitResult.backpressure, q)
  else (SubmitResult.ok,
    ⟨q.depthLimit, q.outstanding + 1, q.submitted + 1, q.hwSubmissions + 1⟩)

/-- `n` consecutive `submitRead` calls with the same arguments and no
intervening `poll`. -/
def submitLoop (dev : DeviceGeom) (lba blockCount bufLen bufAddr : Nat) :
    Nat → QueueHandleSt → QueueHandleSt
  | 0, q => q
  | n + 1, q =>
      (submitRead dev (submitLoop dev lba blockCount bufLen bufAddr n q)
        lba blockCount bufLen bufAddr).2

/-- Result of `close()` on a QueueHandle. -/
inductive CloseResult
  | busy
  | released
deriving DecidableEq

/-- Modelled from the spec: `close()` of the QueueHandle contract (the
release itself is `spdk_put_io_channel` in the sources; the Busy check is in
the library).  It fails with `busy` and releases nothing while the
outstanding count is positive, and otherwise releases the hardware queue
resource; the boolean records whether the resource was released. -/
def closeQueue (q : QueueHandleSt) : CloseResult × Bool :=
  if 0 < q.outstanding then (CloseResult.busy, false) else (CloseResult.released, true)

/-! ## Shutdown tail of `bdev_nvme.c`

`main` (lines 94-111) zeroes the counters, runs `submit_bdev_io` once, then
polls while `io_completed < io_submitted`, and finally calls
`spdk_put_io_channel(ctx.ch)`, then `spdk_bdev_close(ctx.desc)`, and returns
0. -/

/-- Resource-release calls at the end of `main` of bdev_nvme.c. -/
inductive TeardownEvent
  | putIoChannel
  | closeDesc
deriving DecidableEq, BEq

/-- The release order of `main` (bdev_nvme.c, lines 108-109): the I/O channel
is put back before the descriptor is closed. -/
def bdevNvmeTeardown : List TeardownEvent :=
  [TeardownEvent.putIoChannel, TeardownEvent.closeDesc]

/-- The `while (ctx.io_completed < ctx.io_submitted)` poll loop of
bdev_nvme.c (lines 101-104).  `delivered i` is the number of completions the
device delivers to the `i`-th poll; `fuel` bounds the number of iterations so
the model stays total, and `none` means the loop was still running when the
fuel ran out.  Returns the number of iterations executed and the final
completed count. -/
def pollLoop (delivered : Nat → Nat) (submitted : Nat) :
    Nat → Nat → Nat → Option (Nat × Nat)
  | 0, completed, iters =>
      if completed < submitted then none else some (iters, completed)
  | fuel + 1, completed, iters =>
      if completed < submitted then
        pollLoop delivered submitted fuel (completed + delivered iters) (iters + 1)
      else some (iters, completed)

/-- Outcome of the tail of `main` of bdev_nvme.c: poll iterations executed,
final counters, the release calls performed, and the process exit status. -/
structure MainTailResult where
  pollIters : Nat
  submitted : Nat
  completed : Nat
  events : List TeardownEvent
  exitCode : Int
deriving DecidableEq

/-- The tail of `main` of bdev_nvme.c (lines 94-111) from the point where the
poll loop is reached: the loop runs until `io_completed < io_submitted`
fails, then the channel is put back, the descriptor is closed, and the
function returns 0 after printing both counters. -/
def bdevNvmeMainTail (delivered : Nat → Nat) (submitted completed fuel : Nat) :
    Option MainTailResult :=
  match pollLoop delivered submitted fuel completed 0 with
  | none => none
  | some (iters, c) => some ⟨iters, submitted, c, bdevNvmeTeardown, 0⟩

/-! ## Counter state machine, `bdev_reactor_multi_threads.c`

`app_start` (lines 119-146) sets `g_total_expected = THREADS_PER_REACTOR *
IO_PER_THREAD` and creates `THREADS_PER_REACTOR` SPDK threads; `thread_work`
(lines 93-117) calls `submit_one_io` exactly `IO_PER_THREAD` times per
thread; `submit_one_io` (lines 60-91) increments `t->submitted` only when
`spdk_bdev_read` returned 0; `io_complete` (lines 36-58) increments
`t->completed` and (atomically) `g_total_completed`, and calls
`spdk_app_stop(0)` on `g_total_completed == g_total_expected`.  The app runs
on a single reactor (`reactor_mask = "0x1"`), so the callbacks of its
cooperative threads never interleave: each submission attempt and each
completion callback is one indivisible step.  The machine below allows any
order of those steps, a superset of the real cooperative schedules. -/

/-- `THREADS_PER_REACTOR` of bdev_reactor_multi_threads.c (line 12). -/
def THREADS_PER_REACTOR : Nat := 3

/-- `IO_PER_THREAD` of bdev_reactor_multi_threads.c (line 13). -/
def IO_PER_THREAD : Nat := 8

/-- Per-thread context (`struct thread_ctx`): its submitted and completed
counters, plus the number of `submit_one_io` calls its `thread_work` loop has
yet to make. -/
structure ThreadCtx where
  submitted : Nat
  completed : Nat
  budget : Nat
deriving DecidableEq

/-- Global state of bdev_reactor_multi_threads.c: the expected and completed
totals, the thread contexts `g_ctx`, the in-flight `io_task`s (each recorded
as the index of its `tctx` thread), and the number of `spdk_app_stop`
invocations. -/
structure RState where
  g_total_expected : Nat
  g_total_completed : Nat
  g_ctx : List ThreadCtx
  inflight : List Nat
  stops : Nat
deriving DecidableEq

/-- Sum of the per-thread submitted counters. -/
def totalSubmitted (s : RState) : Nat := (s.g_ctx.map ThreadCtx.submitted).sum

/-- Sum of the remaining per-thread submission budgets. -/
def totalBudget (s : RState) : Nat := (s.g_ctx.map ThreadCtx.budget).sum

/-- One observable step of bdev_reactor_multi_threads.c.

`submitOk` is a `submit_one_io` call whose `spdk_bdev_read` returned 0: the
thread consumes one loop iteration, increments its submitted counter and
leaves a new `io_task` in flight.  `submitFail` is a call that failed in
`calloc`, `spdk_zmalloc` or `spdk_bdev_read`: the iteration is consumed and
nothing else changes (the claim about its freed resources is proved on
`submit_one_io` directly).  `complete` is one `io_complete` callback for some
in-flight task, in hardware-determined order: it increments the owning
thread's completed counter and `g_total_completed`, and calls
`spdk_app_stop(0)` exactly when the new total equals `g_total_expected`. -/
inductive RStep : RState → RState → Prop
  | submitOk (exp c : Nat) (pre post : List ThreadCtx) (t : ThreadCtx)
      (infl : List Nat) (st : Nat) (hb : 0 < t.budget) :
      RStep ⟨exp, c, pre ++ t :: post, infl, st⟩
        ⟨exp, c,
          pre ++ { t with submitted := t.submitted + 1, budget := t.budget - 1 } :: post,
          pre.length :: infl, st⟩
  | submitFail (exp c : Nat) (pre post : List ThreadCtx) (t : ThreadCtx)
      (infl : List Nat) (st : Nat) (hb : 0 < t.budget) :
      RStep ⟨exp, c, pre ++ t :: post, infl, st⟩
        ⟨exp, c, pre ++ { t with budget := t.budget - 1 } :: post, infl, st⟩
  | complete (exp c : Nat) (pre post : List ThreadCtx) (t : ThreadCtx)
      (ia ib : List Nat) (st : Nat) :
      RStep ⟨exp, c, pre ++ t :: post, ia ++ pre.length :: ib, st⟩
        ⟨exp, c + 1, pre ++ { t with completed := t.completed + 1 } :: post,
          ia ++ ib, if c + 1 = exp then st + 1 else st⟩

/-- The state right after `app_start`: `g_total_expected = n * ipt`,
`g_total_completed = 0`, `n` fresh thread contexts each about to run the
`ipt`-iteration loop of `thread_work`, nothing in flight, no stop issued. -/
def initRState (n ipt : Nat) : RState :=
  ⟨n * ipt, 0, List.replicate n ⟨0, 0, ipt⟩, [], 0⟩

/-- States reachable by the program from its post-`app_start` state. -/
def RReach (s : RState) : Prop :=
  Relation.ReflTransGen RStep (initRState THREADS_PER_REACTOR IO_PER_THREAD) s

/-- The inductive invariant: the expected total is the constant set by
`app_start`; completions plus in-flight tasks account exactly for successful
submissions; submissions can never outgrow the remaining budgets' headroom;
and `spdk_app_stop` has been called exactly once when the completed total has
reached the expected total, never before. -/
def RInv (s : RState) : Prop :=
  s.g_total_expected = THREADS_PER_REACTOR * IO_PER_THREAD ∧
  s.g_total_completed + s.inflight.length = totalSubmitted s ∧
  totalSubmitted s + totalBudget s ≤ s.g_total_expected ∧
  s.stops = if s.g_total_completed = s.g_total_expected then 1 else 0

/-! ## Theorems -/

/-- The invariant holds in the post-`app_start` state. -/
theorem rinv_init : RInv (initRState THREADS_PER_REACTOR IO_PER_THREAD) :=
  ⟨rfl, rfl, by decide, rfl⟩

/-- The invariant is preserved by every step of the program. -/
theorem rinv_step {s1 s2 : RState} (h : RInv s1) (hs : RStep s1 s2) : RInv s2 := by
  cases hs with
  | submitOk exp c pre post t infl st hb =>
      obtain ⟨h1, h2, h3, h4⟩ := h
      simp only [RInv, totalSubmitted, totalBudget, List.map_append, List.map_cons,
        List.sum_append, List.sum_cons, List.length_cons] at h1 h2 h3 h4 ⊢
      exact ⟨h1, by omega, by omega, h4⟩
  | submitFail exp c pre post t infl st hb =>
      obtain ⟨h1, h2, h3, h4⟩ := h
      simp only [RInv, totalSubmitted, totalBudget, List.map_append, List.map_cons,
        List.sum_append, List.sum_cons, List.length_cons] at h1 h2 h3 h4 ⊢
      exact ⟨h1, by omega, by omega, h4⟩
  | complete exp c pre post t ia ib st =>
      obtain ⟨h1, h2, h3, h4⟩ := h
      simp only [RInv, totalSubmitted, totalBudget, List.map_append, List.map_cons,
        List.sum_append, List.sum_cons, List.length_append, List.length_cons] at h1 h2 h3 h4 ⊢
      refine ⟨h1, by omega, by omega, ?_⟩
      by_cases hc : c = exp
      · exfalso; omega
      · rw [if_neg hc] at h4
        split_ifs <;> omega

/-- Every reachable state satisfies the invariant. -/
theorem rinv_reach {s : RState} (h : RReach s) : RInv s := by
  unfold RReach at h
  induction h with
  | refl => exact rinv_init
  | tail _ hbc ih => exact rinv_step ih hbc

/-- Claim C1: at every observation point of every execution of
bdev_reactor_multi_threads.c, the completed total never exceeds the sum of
the per-thread submitted counters (whose increments are guarded on a zero
`spdk_bdev_read` return code), and that sum never exceeds the expected total
set by `app_start`. -/
theorem c1_completed_le_submitted_le_expected (s : RState) (h : RReach s) :
    s.g_total_completed ≤ totalSubmitted s ∧ totalSubmitted s ≤ s.g_total_expected := by
  obtain ⟨h1, h2, h3, h4⟩ := rinv_reach h
  omega

/-- Witness for C1, at the post-`app_start` state. -/
theorem c1_witness :
    (initRState THREADS_PER_REACTOR IO_PER_THREAD).g_total_completed ≤
        totalSubmitted (initRState THREADS_PER_REACTOR IO_PER_THREAD) ∧
      totalSubmitted (initRState THREADS_PER_REACTOR IO_PER_THREAD) ≤
        (initRState THREADS_PER_REACTOR IO_PER_THREAD).g_total_expected :=
  c1_completed_le_submitted_le_expected _ Relation.ReflTransGen.refl

/-- Claim C2 (amended): in the cooperative execution model of
bdev_reactor_multi_threads.c, where each `io_complete` callback runs to
completion as one step, every reachable state has called `spdk_app_stop` at
most once, and exactly once precisely when the completed total has reached
the expected total; the trigger cannot re-fire. -/
theorem c2_stop_latch_cooperative (s : RState) (h : RReach s) :
    s.stops ≤ 1 ∧ (s.stops = 1 ↔ s.g_total_completed = s.g_total_expected) := by
  obtain ⟨h1, h2, h3, h4⟩ := rinv_reach h
  by_cases hc : s.g_total_completed = s.g_total_expected
  · rw [if_pos hc] at h4
    exact ⟨by omega, by simp [h4, hc]⟩
  · rw [if_neg hc] at h4
    exact ⟨by omega, by simp [h4, hc]⟩

/-- Witness for C2 (amended), at the post-`app_start` state. -/
theorem c2_witness :
    (initRState THREADS_PER_REACTOR IO_PER_THREAD).stops ≤ 1 ∧
      ((initRState THREADS_PER_REACTOR IO_PER_THREAD).stops = 1 ↔
        (initRState THREADS_PER_REACTOR IO_PER_THREAD).g_total_completed =
          (initRState THREADS_PER_REACTOR IO_PER_THREAD).g_total_expected) :=
  c2_stop_latch_cooperative _ Relation.ReflTransGen.refl

/-- Counterexample to claim C2 as stated: in
bdev_multicore_multi_threads.c, a valid cross-reactor interleaving of the
two final `io_complete` callbacks (each increments, then separately
re-reads and compares the counter) reaches the expected total of 2 and
invokes `spdk_app_stop` twice, not exactly once. -/
theorem c2_counterexample :
    interleavingOf doubleStopSched io_complete_ops io_complete_ops = true ∧
    (raceRun 2 doubleStopSched).g_total_completed = 2 ∧
    (raceRun 2 doubleStopSched).stops = 2 := by decide

/-- Claim C3: in the Scenario A configuration of
bdev_multicore_multi_threads.c (2 reactors, 2 threads each, one channel per
thread, 4 reads per channel, zero-error test double), `app_start` sets the
expected total to 16, the threads issue 16 reads, every completion the double
delivers is a success, and after the 16 completion callbacks the completed
total is 16 and `spdk_app_stop` has fired exactly once. -/
theorem c3_scenarioA :
    mc_g_total_expected = 16 ∧ mc_reads_issued = 16 ∧
    ((List.range mc_reads_issued).map zeroErrorDouble).all (fun b => b) = true ∧
    scenarioA_run.g_total_completed = 16 ∧ scenarioA_run.stops = 1 := by decide

/-- Claim C4 (amended): in bdev_reactor_multi_threads.c every buffer
allocated by `submit_one_io` is freed exactly once — once by `io_complete`
on the success path and on the failure path alike, once on the failed
`spdk_bdev_read` path, and nothing is allocated when either allocation
fails. -/
theorem c4_buffer_round_trip :
    (submit_one_io true true 0).bufAllocated = 1 ∧
    (submit_one_io true true 0).bufFreed + (io_complete true).bufFreed = 1 ∧
    (submit_one_io true true 0).bufFreed + (io_complete false).bufFreed = 1 ∧
    (submit_one_io true true (-1)).bufAllocated = 1 ∧
    (submit_one_io true true (-1)).bufFreed = 1 ∧
    (submit_one_io true false 0).bufAllocated = 0 ∧
    (submit_one_io true false 0).bufFreed = 0 ∧
    (submit_one_io false true 0).bufAllocated = 0 ∧
    (submit_one_io false true 0).bufFreed = 0 := by decide

/-- Counterexample to claim C4 as stated: in
bdev_multicore_multi_threads.c the submission path allocates one buffer per
read but the completion callback frees none of them, so a successfully
completed request's buffer is freed zero times, not exactly once. -/
theorem c4_counterexample :
    mc_submit_io_bufAllocated = 1 ∧ mc_io_complete_bufFreed = 0 ∧
    mc_submit_io_bufAllocated ≠ mc_io_complete_bufFreed := by decide

/-- Claim C5: every `submitRead` call violating a precondition — zero block
count, a transfer past the device capacity, a wrong buffer length or a
misaligned buffer — fails synchronously with `InvalidArgument` and leaves
the queue state (submitted counter, outstanding count and hardware-call
count) exactly as it was. -/
theorem c5_invalid_argument (dev : DeviceGeom) (q : QueueHandleSt)
    (lba blockCount bufLen bufAddr : Nat)
    (h : blockCount = 0 ∨ dev.capacity < (lba + blockCount) * dev.blockSize ∨
      bufLen ≠ blockCount * dev.blockSize ∨ bufAddr % 4096 ≠ 0) :
    (submitRead dev q lba blockCount bufLen bufAddr).1 = SubmitResult.invalidArgument ∧
    (submitRead dev q lba blockCount bufLen bufAddr).2 = q := by
  unfold submitRead
  split_ifs with hA hB hC hD hE <;>
    first
      | exact ⟨rfl, rfl⟩
      | (rcases h with h | h | h | h <;> contradiction)

/-- Witness for C5, at the Scenario B input: `submitRead(lba = 0,
blockCount = 0)` on a 4096-byte-block, 1000-block device returns
`InvalidArgument` and changes nothing. -/
theorem c5_witness :
    (submitRead ⟨4096, 1000⟩ ⟨128, 0, 0, 0⟩ 0 0 4096 0).1 = SubmitResult.invalidArgument ∧
    (submitRead ⟨4096, 1000⟩ ⟨128, 0, 0, 0⟩ 0 0 4096 0).2 = ⟨128, 0, 0, 0⟩ :=
  c5_invalid_argument ⟨4096, 1000⟩ ⟨128, 0, 0, 0⟩ 0 0 4096 0 (Or.inl rfl)

/-- A valid, non-full `submitRead` succeeds and increments the outstanding,
submitted and hardware-submission counts. -/
theorem submitRead_ok (dev : DeviceGeom) (q : QueueHandleSt)
    (lba blockCount bufLen bufAddr : Nat)
    (h1 : blockCount ≠ 0) (h2 : (lba + blockCount) * dev.blockSize ≤ dev.capacity)
    (h3 : bufLen = blockCount * dev.blockSize) (h4 : bufAddr % 4096 = 0)
    (h5 : q.outstanding ≠ q.depthLimit) :
    submitRead dev q lba blockCount bufLen bufAddr =
      (SubmitResult.ok,
        ⟨q.depthLimit, q.outstanding + 1, q.submitted + 1, q.hwSubmissions + 1⟩) := by
  unfold submitRead
  rw [if_neg h1, if_neg (Nat.not_lt.mpr h2), if_neg (not_ne_iff.mpr h3),
    if_neg (not_ne_iff.mpr h4), if_neg h5]

/-- On a fresh queue of depth `N`, `k ≤ N` valid submissions all succeed and
bring the outstanding, submitted and hardware counts to `k`. -/
theorem submitLoop_spec (dev : DeviceGeom) (lba blockCount bufLen bufAddr : Nat)
    (h1 : blockCount ≠ 0) (h2 : (lba + blockCount) * dev.blockSize ≤ dev.capacity)
    (h3 : bufLen = blockCount * dev.blockSize) (h4 : bufAddr % 4096 = 0)
    (N : Nat) : ∀ k, k ≤ N →
    submitLoop dev lba blockCount bufLen bufAddr k ⟨N, 0, 0, 0⟩ = ⟨N, k, k, k⟩ := by
  intro k
  induction k with
  | zero => intro _; rfl
  | succ k ih =>
      intro hk
      have hkN := Nat.le_of_succ_le hk
      have hlt : k < N := hk
      unfold submitLoop
      rw [ih hkN,
        submitRead_ok dev ⟨N, k, k, k⟩ lba blockCount bufLen bufAddr h1 h2 h3 h4
          (Nat.ne_of_lt hlt)]

/-- Claim C6: on a QueueHandle of configured depth `N`, after `N` valid
`submitRead` calls have succeeded with no intervening `poll`, the submitted
counter is `N` and the next call returns `Backpressure`, issues no hardware
submission, and leaves the state (submitted counter included) unchanged. -/
theorem c6_backpressure (dev : DeviceGeom) (N lba blockCount bufLen bufAddr : Nat)
    (h1 : blockCount ≠ 0) (h2 : (lba + blockCount) * dev.blockSize ≤ dev.capacity)
    (h3 : bufLen = blockCount * dev.blockSize) (h4 : bufAddr % 4096 = 0) :
    (submitLoop dev lba blockCount bufLen bufAddr N ⟨N, 0, 0, 0⟩).submitted = N ∧
    (submitRead dev (submitLoop dev lba blockCount bufLen bufAddr N ⟨N, 0, 0, 0⟩)
        lba blockCount bufLen bufAddr).1 = SubmitResult.backpressure ∧
    (submitRead dev (submitLoop dev lba blockCount bufLen bufAddr N ⟨N, 0, 0, 0⟩)
        lba blockCount bufLen bufAddr).2 =
      submitLoop dev lba blockCount bufLen bufAddr N ⟨N, 0, 0, 0⟩ := by
  have hN := submitLoop_spec dev lba blockCount bufLen bufAddr h1 h2 h3 h4 N N le_rfl
  rw [hN]
  have hbp : submitRead dev ⟨N, N, N, N⟩ lba blockCount bufLen bufAddr =
      (SubmitResult.backpressure, ⟨N, N, N, N⟩) := by
    unfold submitRead
    rw [if_neg h1, if_neg (Nat.not_lt.mpr h2), if_neg (not_ne_iff.mpr h3),
      if_neg (not_ne_iff.mpr h4), if_pos rfl]
  rw [hbp]
  exact ⟨rfl, rfl, rfl⟩

/-- Witness for C6: depth 2, 512-byte blocks, three valid submissions. -/
theorem c6_witness :
    (submitLoop ⟨512, 1000⟩ 0 1 512 0 2 ⟨2, 0, 0, 0⟩).submitted = 2 ∧
    (submitRead ⟨512, 1000⟩ (submitLoop ⟨512, 1000⟩ 0 1 512 0 2 ⟨2, 0, 0, 0⟩)
        0 1 512 0).1 = SubmitResult.backpressure ∧
    (submitRead ⟨512, 1000⟩ (submitLoop ⟨512, 1000⟩ 0 1 512 0 2 ⟨2, 0, 0, 0⟩)
        0 1 512 0).2 = submitLoop ⟨512, 1000⟩ 0 1 512 0 2 ⟨2, 0, 0, 0⟩ :=
  c6_backpressure ⟨512, 1000⟩ 2 0 1 512 0 (by decide) (by decide) (by decide) (by decide)

/-- Claim C7: `close()` on a QueueHandle returns `Busy` and releases nothing
whenever the outstanding count is positive, releases the hardware resource
otherwise, and the one execution that reaches Stopped (bdev_nvme.c, whose
poll loop has drained the outstanding count to zero) puts the I/O channel
back before closing the device descriptor, so the descriptor's lifetime
contains the channel's. -/
theorem c7_close_busy_and_release_order (q : QueueHandleSt) :
    (0 < q.outstanding → closeQueue q = (CloseResult.busy, false)) ∧
    (q.outstanding = 0 → closeQueue q = (CloseResult.released, true)) ∧
    List.indexOf TeardownEvent.putIoChannel bdevNvmeTeardown <
      List.indexOf TeardownEvent.closeDesc bdevNvmeTeardown := by
  refine ⟨?_, ?_, ?_⟩
  · intro hpos
    unfold closeQueue
    rw [if_pos hpos]
  · intro hzero
    unfold closeQueue
    rw [if_neg (by omega)]
  · decide

/-- Witness for C7: a queue with one outstanding request is busy; a drained
queue releases. -/
theorem c7_witness :
    closeQueue ⟨8, 1, 1, 1⟩ = (CloseResult.busy, false) ∧
    closeQueue ⟨8, 0, 4, 4⟩ = (CloseResult.released, true) :=
  ⟨(c7_close_busy_and_release_order ⟨8, 1, 1, 1⟩).1 (by decide),
   (c7_close_busy_and_release_order ⟨8, 0, 4, 4⟩).2.1 rfl⟩

/-- Claim C8 (code evaluated at the failing input): the mutation of
`g_total_completed` in bdev_multicore_multi_threads.c is a plain non-atomic
read-modify-write, unlike the atomic fetch-add of the reactor variant, and
under a valid cross-core interleaving of its load and store halves one of
two concurrent completions is lost: the counter ends at 1 instead of 2 and
`spdk_app_stop` never fires. -/
theorem c8_nonatomic_increment_lost_update :
    multicore_g_total_completed_mutation = CounterMutation.plainIncrement ∧
    multicore_g_total_completed_mutation ≠ reactor_g_total_completed_mutation ∧
    interleavingOf lostUpdateSched io_complete_ops io_complete_ops = true ∧
    (raceRun 2 lostUpdateSched).g_total_completed = 1 ∧
    (raceRun 2 lostUpdateSched).stops = 0 := by decide

/-- Claim C9: a failed submission attempt — `calloc` failure, `spdk_zmalloc`
failure, buffer-allocation failure, or a nonzero `spdk_bdev_read` return
code — frees everything it allocated and leaves the submitted counter, the
completed counter and the outstanding state unchanged, in both
bdev_reactor_multi_threads.c (`submit_one_io`) and bdev_nvme.c
(`submit_bdev_io`). -/
theorem c9_failed_submission_effect_free (callocOk zmallocOk allocOk : Bool)
    (rc : Int) (hrc : rc ≠ 0) :
    (submit_one_io callocOk zmallocOk rc).effectFree = true ∧
    (submit_bdev_io allocOk rc).effectFree = true ∧
    (submit_one_io callocOk false 0).effectFree = true ∧
    (submit_one_io false zmallocOk 0).effectFree = true ∧
    (submit_bdev_io false 0).effectFree = true := by
  cases callocOk <;> cases zmallocOk <;> cases allocOk <;>
    simp [submit_one_io, submit_bdev_io, SubmitEff.effectFree, hrc]

/-- Witness for C9, at return code -22 (-EINVAL). -/
theorem c9_witness :
    (submit_one_io true true (-22)).effectFree = true ∧
    (submit_bdev_io true (-22)).effectFree = true ∧
    (submit_one_io true false 0).effectFree = true ∧
    (submit_one_io false true 0).effectFree = true ∧
    (submit_bdev_io false 0).effectFree = true :=
  c9_failed_submission_effect_free true true true (-22) (by decide)

/-- Claim C10: when the poll loop of bdev_nvme.c is reached with a submitted
counter of 0, its body never runs (for any fuel and any device behaviour),
and the program still puts back the I/O channel, closes the descriptor, and
returns exit status 0 reporting submitted = 0 and completed = 0. -/
theorem c10_zero_submissions_clean_exit (delivered : Nat → Nat) (fuel : Nat) :
    bdevNvmeMainTail delivered 0 0 fuel = some ⟨0, 0, 0, bdevNvmeTeardown, 0⟩ := by
  cases fuel <;> simp [bdevNvmeMainTail, pollLoop]

/-- Witness for C10, at a device that would deliver one completion per poll
and fuel 5. -/
theorem c10_witness :
    bdevNvmeMainTail (fun _ => 1) 0 0 5 = some ⟨0, 0, 0, bdevNvmeTeardown, 0⟩ :=
  c10_zero_submissions_clean_exit (fun _ => 1) 5
